import Mathlib

/-!
Verification of the questionnaire-scoring / archetype / plan-synthesis core
of `src/backend/server.py` (a FastAPI productivity-coach backend).

The three pure functions `calculate_profile_axes`, `determine_archetype` and
`generate_plan_template` are embedded shallowly:

* Python `float` values (hours, axis scores) are modelled as `ℚ`, Python
  `int` as `ℤ`; `min`/`max` are modelled by the executable `qmin`/`qmax`.
* Python string primitives used by the code — `str.lower()`, `str.strip()`,
  `str.split()` (no argument: split on whitespace runs, dropping empties),
  the substring test `needle in hay`, `len`, and `" ".join` — are modelled
  character-exactly (over ASCII) by `pyLower`, `pyStrip`, `pySplit`,
  `containsSub`, `.data.length` and `pyJoinSpace`.
* `generate_plan_template` in the source evaluates
  `questionnaire.key_habit_change.split()[0]`, which raises `IndexError`
  when the split list is empty; the embedding returns `Option PlanTemplate`
  and models that fault as `none`.
-/

/-- Python `min` on floats, on the exact rationals that model them. -/
def qmin (a b : ℚ) : ℚ := if a ≤ b then a else b

/-- Python `max` on floats, on the exact rationals that model them. -/
def qmax (a b : ℚ) : ℚ := if a ≤ b then b else a

/-- ASCII case folding of one character, as Python `str.lower` acts on the
ASCII texts this program handles. -/
def lowerChar (c : Char) : Char := c.toLower

/-- Python `s.lower()`. -/
def pyLower (s : String) : String := ⟨s.data.map lowerChar⟩

/-- Drop leading whitespace characters from a character list. -/
def dropLeadingWs : List Char → List Char
  | [] => []
  | c :: cs => if c.isWhitespace then dropLeadingWs cs else c :: cs

/-- Python `s.strip()`: remove leading and trailing whitespace. -/
def pyStrip (s : String) : String :=
  ⟨dropLeadingWs (dropLeadingWs s.data.reverse).reverse⟩

/-- Accumulator loop behind `pySplit`: cut at whitespace runs, emit the
non-empty chunks. -/
def splitWsAux : List Char → List Char → List String
  | [], acc => if acc.isEmpty then [] else [⟨acc.reverse⟩]
  | c :: cs, acc =>
    if c.isWhitespace then
      (if acc.isEmpty then [] else [⟨acc.reverse⟩]) ++ splitWsAux cs []
    else splitWsAux cs (c :: acc)

/-- Python `s.split()` with no argument: split on runs of whitespace and
drop empty pieces (so `"".split()` and `"   ".split()` are both `[]`). -/
def pySplit (s : String) : List String := splitWsAux s.data []

/-- Whether the first list is a prefix of the second. -/
def isPrefixChars : List Char → List Char → Bool
  | [], _ => true
  | _ :: _, [] => false
  | a :: as, b :: bs => a == b && isPrefixChars as bs

/-- Whether `needle` occurs contiguously inside the second list. -/
def isSubChars (needle : List Char) : List Char → Bool
  | [] => needle.isEmpty
  | b :: bs => isPrefixChars needle (b :: bs) || isSubChars needle bs

/-- Python `needle in hay` on strings: contiguous substring test. -/
def containsSub (hay needle : String) : Bool := isSubChars needle.data hay.data

/-- Python `" ".join(l)`. -/
def pyJoinSpace : List String → String
  | [] => ""
  | [s] => s
  | s :: rest => s ++ " " ++ pyJoinSpace rest

/-- Python truthiness of the `Optional[int]` field
`morning_routine_duration`: `None` and `0` are falsy. -/
def pyTruthy : Option ℤ → Bool
  | none => false
  | some d => d != 0

/-- `ChronotypeChoice(str, Enum)` of the source. -/
inductive ChronotypeChoice
  | EARLY_MORNING
  | LATE_MORNING
  | AFTERNOON
  | EVENING
  | NIGHT
deriving DecidableEq

/-- `SetbackReaction(str, Enum)` of the source. -/
inductive SetbackReaction
  | GIVE_UP
  | TRY_AGAIN_SAME
  | ADJUST_APPROACH
  | LEARN_ITERATE
deriving DecidableEq

/-- `HabitCount(str, Enum)` of the source. -/
inductive HabitCount
  | ZERO
  | ONE_TO_TWO
  | THREE_TO_FOUR
  | FIVE_PLUS
deriving DecidableEq

/-- `QuestionnaireResponse(BaseModel)` of the source. Floats are modelled
as `ℚ`, the optional integer duration as `Option ℤ`. -/
structure QuestionnaireResponse where
  energizing_activities : String
  passionate_problems : String
  skills : List String
  weekday_hours : ℚ
  weekend_hours : ℚ
  chronotype : ChronotypeChoice
  morning_routine : String
  morning_routine_duration : Option ℤ
  habit_count : HabitCount
  setback_reaction : SetbackReaction
  outcome_1 : String
  outcome_2 : String
  outcome_3 : String
  key_habit_change : String
  distractions : List String
  commitment_level : ℤ
deriving DecidableEq

/-- `ProfileAxes(BaseModel)` of the source (the `ge=0, le=100` field bounds
are pydantic validation, stated separately as `ValidQuestionnaire` implies
them; see the range theorem). -/
structure ProfileAxes where
  purpose_clarity : ℚ
  energy_chronotype : ℚ
  focus_capacity : ℚ
  habit_foundation : ℚ
  mindset : ℚ
  skill_fit : ℚ
deriving DecidableEq

/-- `Archetype(str, Enum)` of the source. -/
inductive Archetype
  | PURPOSE_DRIVEN_HIGH_ENERGY
  | EXPLORATORY_MODERATE
  | LOW_ENERGY_WANTS_CHANGE
deriving DecidableEq

/-- The `.value` string of each `Archetype` member. -/
def archetypeValue : Archetype → String
  | .PURPOSE_DRIVEN_HIGH_ENERGY => "Purpose-driven + High Energy + High Focus"
  | .EXPLORATORY_MODERATE => "Exploratory + Moderate Energy + Moderate Habit"
  | .LOW_ENERGY_WANTS_CHANGE => "Low Energy / Low Habit + Wants Change"

/-- `UserProfile` restricted to the fields the core functions read
(`id` and `created_at` belong to the persistence collaborator). -/
structure UserProfile where
  questionnaire : QuestionnaireResponse
  axes : ProfileAxes
  archetype : Archetype

/-- `HabitStack(BaseModel)` of the source. -/
structure HabitStack where
  name : String
  cue : String
  action : String
  reward : String
  tracking : String
deriving DecidableEq

/-- `TimeBlock(BaseModel)` of the source. -/
structure TimeBlock where
  time : String
  duration : ℤ
  activity : String
  type : String
deriving DecidableEq

/-- `PlanTemplate(BaseModel)` of the source. -/
structure PlanTemplate where
  yearly_goal : String
  pillars : List String
  monthly_template : String
  weekly_template : String
  daily_template : String
  habit_stack : List HabitStack
  suggested_time_blocks : List TimeBlock
  justification : String
deriving DecidableEq

/-- The `purpose_keywords` list of `calculate_profile_axes`. -/
def purpose_keywords : List String :=
  ["create", "build", "help", "solve", "improve", "teach", "mentor", "impact"]

/-- The `focus_keywords` list of `calculate_profile_axes`. -/
def focus_keywords : List String :=
  ["coding", "design", "writing", "research", "analysis", "problem", "create"]

/-- The `chronotype_scores` dict of `calculate_profile_axes`. -/
def chronotype_scores : ChronotypeChoice → ℚ
  | .EARLY_MORNING => 90
  | .LATE_MORNING => 70
  | .AFTERNOON => 60
  | .EVENING => 50
  | .NIGHT => 30

/-- The `habit_scores` dict of `calculate_profile_axes`. -/
def habit_scores : HabitCount → ℚ
  | .ZERO => 10
  | .ONE_TO_TWO => 35
  | .THREE_TO_FOUR => 65
  | .FIVE_PLUS => 90

/-- The `setback_scores` dict of `calculate_profile_axes`. -/
def setback_scores : SetbackReaction → ℚ
  | .GIVE_UP => 20
  | .TRY_AGAIN_SAME => 40
  | .ADJUST_APPROACH => 75
  | .LEARN_ITERATE => 95

/-- `avg_hours` of `calculate_profile_axes`:
`(weekday_hours * 5 + weekend_hours * 2) / 7`. -/
def avg_hours (q : QuestionnaireResponse) : ℚ :=
  (q.weekday_hours * 5 + q.weekend_hours * 2) / 7

/-- The purpose-clarity block of `calculate_profile_axes`:
`sum(20 for keyword in purpose_keywords if keyword in q2_lower)` is the sum
of the constant 20 over the keywords passing the substring test, plus 15
per outcome whose word count exceeds 3, clamped by
`min(100, max(0, purpose_score))`. -/
def purpose_clarity_score (q : QuestionnaireResponse) : ℚ :=
  let q2_lower := pyLower q.passionate_problems
  let keyword_score : ℚ :=
    ((purpose_keywords.filter (fun kw => containsSub q2_lower kw)).map
      (fun _ => (20 : ℚ))).sum
  let specific_outcomes : ℕ :=
    List.countP (fun o => decide (3 < (pySplit o).length))
      [q.outcome_1, q.outcome_2, q.outcome_3]
  qmin 100 (qmax 0 (keyword_score + (specific_outcomes : ℚ) * 15))

/-- The energy/chronotype block of `calculate_profile_axes`: the chronotype
lookup, plus `min(20, duration / 2)` when
`questionnaire.morning_routine.strip() and questionnaire.morning_routine_duration`
is truthy, plus `min(30, avg_hours * 5)`, clamped by
`min(100, energy_score + time_score)`. -/
def energy_chronotype_score (q : QuestionnaireResponse) : ℚ :=
  let energy_score :=
    chronotype_scores q.chronotype +
      (if pyStrip q.morning_routine ≠ "" ∧ pyTruthy q.morning_routine_duration then
        qmin 20 ((q.morning_routine_duration.getD 0 : ℚ) / 2)
      else 0)
  let time_score := qmin 30 (avg_hours q * 5)
  qmin 100 (energy_score + time_score)

/-- The focus-capacity block of `calculate_profile_axes`:
`sum(15 for keyword in focus_keywords if keyword in q1_lower)` plus
`min(40, avg_hours * 8)` minus `len(distractions) * 5`, clamped by
`min(100, max(0, ...))`. -/
def focus_capacity_score (q : QuestionnaireResponse) : ℚ :=
  let q1_lower := pyLower q.energizing_activities
  let focus_base : ℚ :=
    ((focus_keywords.filter (fun kw => containsSub q1_lower kw)).map
      (fun _ => (15 : ℚ))).sum
  let hours_factor := qmin 40 (avg_hours q * 8)
  let distraction_penalty := (q.distractions.length : ℚ) * 5
  qmin 100 (qmax 0 (focus_base + hours_factor - distraction_penalty))

/-- The habit-foundation block of `calculate_profile_axes`: the habit-count
lookup, plus 15 when `len(key_habit_change.strip()) > 10`, clamped by
`min(100, habit_base)`. -/
def habit_foundation_score (q : QuestionnaireResponse) : ℚ :=
  let habit_base :=
    habit_scores q.habit_count +
      (if 10 < (pyStrip q.key_habit_change).data.length then (15 : ℚ) else 0)
  qmin 100 habit_base

/-- The mindset block of `calculate_profile_axes`: the setback lookup plus
`commitment_level * 5`, clamped by `min(100, ...)`. -/
def mindset_score (q : QuestionnaireResponse) : ℚ :=
  qmin 100 (setback_scores q.setback_reaction + (q.commitment_level : ℚ) * 5)

/-- The skill-fit block of `calculate_profile_axes`:
`min(60, skill_count * 20)` plus 15 for each skill one of whose
lower-cased whitespace-split words occurs in the lower-cased concatenation
of the three outcomes, clamped by `min(100, ...)`. -/
def skill_fit_score (q : QuestionnaireResponse) : ℚ :=
  let skill_base := qmin 60 ((q.skills.length : ℚ) * 20)
  let outcomes_text := pyLower (pyJoinSpace [q.outcome_1, q.outcome_2, q.outcome_3])
  let skill_alignment : ℚ :=
    ((q.skills.filter (fun skill =>
        (pySplit (pyLower skill)).any (fun word => containsSub outcomes_text word))).map
      (fun _ => (15 : ℚ))).sum
  qmin 100 (skill_base + skill_alignment)

/-- `calculate_profile_axes` of the source, assembled from its six blocks. -/
def calculate_profile_axes (q : QuestionnaireResponse) : ProfileAxes :=
  { purpose_clarity := purpose_clarity_score q
    energy_chronotype := energy_chronotype_score q
    focus_capacity := focus_capacity_score q
    habit_foundation := habit_foundation_score q
    mindset := mindset_score q
    skill_fit := skill_fit_score q }

/-- `determine_archetype` of the source: first match wins. -/
def determine_archetype (axes : ProfileAxes) : Archetype :=
  if 60 ≤ axes.purpose_clarity ∧ 70 ≤ axes.energy_chronotype ∧
      60 ≤ axes.focus_capacity then
    .PURPOSE_DRIVEN_HIGH_ENERGY
  else if axes.habit_foundation < 40 ∧ axes.energy_chronotype < 60 then
    .LOW_ENERGY_WANTS_CHANGE
  else
    .EXPLORATORY_MODERATE

/-- The `yearly_goal` string of each branch of `generate_plan_template`. -/
def yearlyGoalFor : Archetype → QuestionnaireResponse → String
  | .PURPOSE_DRIVEN_HIGH_ENERGY, q =>
      "Achieve " ++ q.outcome_1 ++ " through systematic skill building and focused execution"
  | .LOW_ENERGY_WANTS_CHANGE, q =>
      "Build sustainable habits and gradually work toward " ++ q.outcome_1
  | .EXPLORATORY_MODERATE, q =>
      "Explore and develop " ++ q.outcome_1 ++ " through structured experimentation"

/-- The `pillars` list of each branch of `generate_plan_template`;
`questionnaire.skills[0] if questionnaire.skills else "core skills"` is the
match on `q.skills`. -/
def pillarsFor : Archetype → QuestionnaireResponse → List String
  | .PURPOSE_DRIVEN_HIGH_ENERGY, q =>
      [ "Master " ++ (match q.skills with | [] => "core skills" | s :: _ => s) ++
          " through daily practice",
        "Build sustainable systems around " ++ q.key_habit_change,
        "Maintain high-energy routines and deep work blocks" ]
  | .LOW_ENERGY_WANTS_CHANGE, q =>
      [ "Establish micro-habits and daily wins",
        "Address " ++ q.key_habit_change ++ " with small steps",
        "Build energy and focus capacity over time" ]
  | .EXPLORATORY_MODERATE, q =>
      [ "Monthly skill experiments and learning sprints",
        "Develop " ++ q.key_habit_change ++ " through habit stacking",
        "Build consistent review and iteration cycles" ]

/-- The `time_blocks` list of each branch of `generate_plan_template`. -/
def timeBlocksFor : Archetype → List TimeBlock
  | .PURPOSE_DRIVEN_HIGH_ENERGY =>
      [ { time := "05:30", duration := 30, activity := "Morning routine + planning",
          type := "routine" },
        { time := "06:00", duration := 90, activity := "Deep work block 1",
          type := "deep_work" },
        { time := "18:00", duration := 60, activity := "Skill practice",
          type := "practice" } ]
  | .LOW_ENERGY_WANTS_CHANGE =>
      [ { time := "07:00", duration := 15, activity := "Simple morning routine",
          type := "routine" },
        { time := "19:30", duration := 30, activity := "Micro-practice session",
          type := "practice" } ]
  | .EXPLORATORY_MODERATE =>
      [ { time := "06:30", duration := 45, activity := "Morning routine + planning",
          type := "routine" },
        { time := "19:00", duration := 45, activity := "Learning and practice",
          type := "practice" } ]

/-- Python `f-string` formatting with spec `.0f` on the rationals modelling
the floats: round to the nearest integer, ties to even, rendered in
decimal. -/
def fmtPct (x : ℚ) : String :=
  let n := x.num
  let d := (x.den : ℤ)
  let quot := Int.fdiv n d
  let twiceRem := 2 * (n - quot * d)
  let rounded :=
    if twiceRem < d then quot
    else if d < twiceRem then quot + 1
    else if quot % 2 = 0 then quot else quot + 1
  toString rounded

/-- `generate_plan_template` of the source. The Python computes
`yearly_goal`, `pillars` and `time_blocks` in one `if`/`elif`/`else` on the
archetype (split here into `yearlyGoalFor`, `pillarsFor`, `timeBlocksFor`),
then builds the two-entry habit stack. The second entry's name evaluates
`questionnaire.key_habit_change.split()[0]`, an `IndexError` when the split
is empty: that fault is modelled as `none`. -/
def generate_plan_template (profile : UserProfile) : Option PlanTemplate :=
  let questionnaire := profile.questionnaire
  let time_blocks := timeBlocksFor profile.archetype
  match pySplit questionnaire.key_habit_change with
  | [] => none
  | first_word :: _ =>
    some
      { yearly_goal := yearlyGoalFor profile.archetype questionnaire
        pillars := pillarsFor profile.archetype questionnaire
        monthly_template := "Monthly theme focus with weekly milestones and habit tracking"
        weekly_template := "Weekly planning with 2-3 focus sessions and daily micro-habits"
        daily_template := "Morning routine → Deep work/practice → Evening reflection"
        habit_stack :=
          [ { name := "Morning Startup"
              cue := "After waking up"
              action := "Drink water + 5-minute planning"
              reward := "Favorite morning beverage"
              tracking := "Daily checkbox" },
            { name := first_word ++ " Practice"
              cue := "After " ++
                (match time_blocks.get? 1 with
                  | some tb => tb.activity
                  | none => "dinner")
              action := "10 minutes of " ++ questionnaire.key_habit_change
              reward := "Track progress + celebration"
              tracking := "Weekly streak counter" } ]
        suggested_time_blocks := time_blocks
        justification :=
          archetypeValue profile.archetype ++ " approach based on " ++
            fmtPct profile.axes.purpose_clarity ++ "% purpose clarity and " ++
            fmtPct profile.axes.energy_chronotype ++ "% energy score" }

/-- The structurally valid inputs of the spec's data model: non-negative
hours, a non-negative duration when present, commitment level 1..10. -/
def ValidQuestionnaire (q : QuestionnaireResponse) : Prop :=
  0 ≤ q.weekday_hours ∧ 0 ≤ q.weekend_hours ∧
    0 ≤ q.morning_routine_duration.getD 0 ∧
    1 ≤ q.commitment_level ∧ q.commitment_level ≤ 10

instance (q : QuestionnaireResponse) : Decidable (ValidQuestionnaire q) := by
  unfold ValidQuestionnaire; infer_instance

/-- The routine bonus as the spec words it: `min(20, duration/2)` whenever
the trimmed morning-routine text is non-empty and a duration is present,
otherwise 0. (The code additionally skips a present duration of exactly 0,
where the bonus is 0 either way, so the two agree extensionally.) -/
def spec_routine_bonus (q : QuestionnaireResponse) : ℚ :=
  match q.morning_routine_duration with
  | some d => if pyStrip q.morning_routine ≠ "" then qmin 20 ((d : ℚ) / 2) else 0
  | none => 0

/-- The spec's `K` for focus capacity: how many keywords of the fixed focus
list occur as case-insensitive substrings of the energizing-activities
text. -/
def spec_focus_keyword_count (q : QuestionnaireResponse) : ℕ :=
  (focus_keywords.filter
    (fun kw => containsSub (pyLower q.energizing_activities) kw)).length

/-- The spec's aligned-skill count for skill fit: skills at least one of
whose lower-cased whitespace-split words occurs in the concatenated
outcomes text. -/
def spec_aligned_skill_count (q : QuestionnaireResponse) : ℕ :=
  (q.skills.filter (fun skill =>
      (pySplit (pyLower skill)).any (fun word =>
        containsSub (pyLower (pyJoinSpace [q.outcome_1, q.outcome_2, q.outcome_3]))
          word))).length

/-- Concrete questionnaire realising the spec's Scenario C: the passionate
problems sentence matches the keywords "help" and "build" only, and each
outcome has more than 3 words. -/
def qC : QuestionnaireResponse :=
  { energizing_activities := "reading"
    passionate_problems := "I want to help and build tools"
    skills := []
    weekday_hours := 2
    weekend_hours := 2
    chronotype := .AFTERNOON
    morning_routine := ""
    morning_routine_duration := none
    habit_count := .ZERO
    setback_reaction := .GIVE_UP
    outcome_1 := "ship one useful project this year"
    outcome_2 := "write one article every single month"
    outcome_3 := "run a small workshop for beginners"
    key_habit_change := "daily writing"
    distractions := []
    commitment_level := 5 }

/-- Concrete questionnaire realising the spec's Scenario A: early-morning
chronotype, no morning routine, 8 weekday and 8 weekend hours. -/
def qA : QuestionnaireResponse :=
  { qC with chronotype := .EARLY_MORNING, weekday_hours := 8, weekend_hours := 8 }

/-- Base questionnaire for the keyword-multiplicity witness: one purpose
keyword and one focus keyword, each appearing once. -/
def qK : QuestionnaireResponse :=
  { qC with passionate_problems := "build", energizing_activities := "coding" }

/-- The same questionnaire with the matching keywords repeated several
times in each text. -/
def qKRep : QuestionnaireResponse :=
  { qK with passionate_problems := "build build and build again"
            energizing_activities := "coding coding coding" }

/-- A profile classified PURPOSE_DRIVEN_HIGH_ENERGY whose questionnaire has
an empty skills list (for the "core skills" fallback). -/
def profileP : UserProfile :=
  { questionnaire := qC
    axes := calculate_profile_axes qC
    archetype := .PURPOSE_DRIVEN_HIGH_ENERGY }

/-- A profile whose key habit change is the empty string. -/
def profileEmptyHabit : UserProfile :=
  { questionnaire := { qC with key_habit_change := "" }
    axes := calculate_profile_axes qC
    archetype := .EXPLORATORY_MODERATE }

/-- A profile whose key habit change is whitespace only. -/
def profileSpacesHabit : UserProfile :=
  { questionnaire := { qC with key_habit_change := "   " }
    axes := calculate_profile_axes qC
    archetype := .LOW_ENERGY_WANTS_CHANGE }

/-- Inert default used only to name the plan `generate_plan_template`
produces for `profileP` (via `Option.getD`). -/
def defaultPlan : PlanTemplate :=
  { yearly_goal := ""
    pillars := []
    monthly_template := ""
    weekly_template := ""
    daily_template := ""
    habit_stack := []
    suggested_time_blocks := []
    justification := "" }

/-- The plan synthesised for `profileP`. -/
def planP : PlanTemplate := (generate_plan_template profileP).getD defaultPlan

/-- Axes meeting rule (1) of the classifier, with low mindset and skill
fit. -/
def axesHigh : ProfileAxes :=
  { purpose_clarity := 60
    energy_chronotype := 70
    focus_capacity := 60
    habit_foundation := 50
    mindset := 10
    skill_fit := 20 }

/-- The same axes with mindset and skill fit changed arbitrarily. -/
def axesHighAlt : ProfileAxes :=
  { axesHigh with mindset := 90, skill_fit := 80 }

theorem qmin_eq_min (a b : ℚ) : qmin a b = min a b := by
  unfold qmin; rw [min_def]

theorem qmax_eq_max (a b : ℚ) : qmax a b = max a b := by
  unfold qmax; rw [max_def]

theorem clamp01_mem (x : ℚ) : 0 ≤ qmin 100 (qmax 0 x) ∧ qmin 100 (qmax 0 x) ≤ 100 := by
  rw [qmin_eq_min, qmax_eq_max]
  exact ⟨le_min (by norm_num) (le_max_left 0 x), min_le_left _ _⟩

theorem qmin100_le (x : ℚ) : qmin 100 x ≤ 100 := by
  rw [qmin_eq_min]; exact min_le_left _ _

theorem qmin100_nonneg {x : ℚ} (hx : 0 ≤ x) : 0 ≤ qmin 100 x := by
  rw [qmin_eq_min]; exact le_min (by norm_num) hx

theorem sum_map_const_rat {α : Type} (l : List α) (c : ℚ) :
    (l.map (fun _ => c)).sum = (l.length : ℚ) * c := by
  induction l with
  | nil => simp
  | cons a t ih => simp [ih]; ring

theorem chronotype_scores_nonneg (c : ChronotypeChoice) : 0 ≤ chronotype_scores c := by
  cases c <;> norm_num [chronotype_scores]

theorem habit_scores_nonneg (c : HabitCount) : 0 ≤ habit_scores c := by
  cases c <;> norm_num [habit_scores]

theorem setback_scores_nonneg (c : SetbackReaction) : 0 ≤ setback_scores c := by
  cases c <;> norm_num [setback_scores]

theorem purpose_clarity_score_def (q : QuestionnaireResponse) :
    purpose_clarity_score q =
      qmin 100 (qmax 0
        (((purpose_keywords.filter
            (fun kw => containsSub (pyLower q.passionate_problems) kw)).map
            (fun _ => (20 : ℚ))).sum +
          (List.countP (fun o => decide (3 < (pySplit o).length))
            [q.outcome_1, q.outcome_2, q.outcome_3] : ℚ) * 15)) := rfl

theorem energy_chronotype_score_def (q : QuestionnaireResponse) :
    energy_chronotype_score q =
      qmin 100
        ((chronotype_scores q.chronotype +
          (if pyStrip q.morning_routine ≠ "" ∧ pyTruthy q.morning_routine_duration then
            qmin 20 ((q.morning_routine_duration.getD 0 : ℚ) / 2)
          else 0)) +
          qmin 30 (avg_hours q * 5)) := rfl

theorem focus_capacity_score_def (q : QuestionnaireResponse) :
    focus_capacity_score q =
      qmin 100 (qmax 0
        (((focus_keywords.filter
            (fun kw => containsSub (pyLower q.energizing_activities) kw)).map
            (fun _ => (15 : ℚ))).sum +
          qmin 40 (avg_hours q * 8) - (q.distractions.length : ℚ) * 5)) := rfl

theorem habit_foundation_score_def (q : QuestionnaireResponse) :
    habit_foundation_score q =
      qmin 100 (habit_scores q.habit_count +
        (if 10 < (pyStrip q.key_habit_change).data.length then (15 : ℚ) else 0)) := rfl

theorem skill_fit_score_def (q : QuestionnaireResponse) :
    skill_fit_score q =
      qmin 100 (qmin 60 ((q.skills.length : ℚ) * 20) +
        ((q.skills.filter (fun skill =>
            (pySplit (pyLower skill)).any (fun word =>
              containsSub (pyLower (pyJoinSpace [q.outcome_1, q.outcome_2, q.outcome_3]))
                word))).map (fun _ => (15 : ℚ))).sum) := rfl

theorem avg_hours_nonneg {q : QuestionnaireResponse}
    (hwd : 0 ≤ q.weekday_hours) (hwe : 0 ≤ q.weekend_hours) : 0 ≤ avg_hours q :=
  div_nonneg
    (add_nonneg (mul_nonneg hwd (by norm_num)) (mul_nonneg hwe (by norm_num)))
    (by norm_num)

theorem axes_purpose (q : QuestionnaireResponse) :
    (calculate_profile_axes q).purpose_clarity = purpose_clarity_score q := rfl

theorem axes_energy (q : QuestionnaireResponse) :
    (calculate_profile_axes q).energy_chronotype = energy_chronotype_score q := rfl

theorem axes_focus (q : QuestionnaireResponse) :
    (calculate_profile_axes q).focus_capacity = focus_capacity_score q := rfl

theorem axes_habit (q : QuestionnaireResponse) :
    (calculate_profile_axes q).habit_foundation = habit_foundation_score q := rfl

theorem axes_mindset (q : QuestionnaireResponse) :
    (calculate_profile_axes q).mindset = mindset_score q := rfl

theorem axes_skill (q : QuestionnaireResponse) :
    (calculate_profile_axes q).skill_fit = skill_fit_score q := rfl

/-- C1: for every structurally valid questionnaire, all six axes returned by
`calculate_profile_axes` lie in the closed interval [0, 100]. -/
theorem calculate_profile_axes_in_range (q : QuestionnaireResponse)
    (h : ValidQuestionnaire q) :
    (0 ≤ (calculate_profile_axes q).purpose_clarity ∧
      (calculate_profile_axes q).purpose_clarity ≤ 100) ∧
    (0 ≤ (calculate_profile_axes q).energy_chronotype ∧
      (calculate_profile_axes q).energy_chronotype ≤ 100) ∧
    (0 ≤ (calculate_profile_axes q).focus_capacity ∧
      (calculate_profile_axes q).focus_capacity ≤ 100) ∧
    (0 ≤ (calculate_profile_axes q).habit_foundation ∧
      (calculate_profile_axes q).habit_foundation ≤ 100) ∧
    (0 ≤ (calculate_profile_axes q).mindset ∧
      (calculate_profile_axes q).mindset ≤ 100) ∧
    (0 ≤ (calculate_profile_axes q).skill_fit ∧
      (calculate_profile_axes q).skill_fit ≤ 100) := by
  obtain ⟨hwd, hwe, hdur, hc1, hc2⟩ := h
  have havg : 0 ≤ avg_hours q := avg_hours_nonneg hwd hwe
  rw [axes_purpose, axes_energy, axes_focus, axes_habit, axes_mindset, axes_skill]
  refine ⟨?_, ⟨?_, ?_⟩, ?_, ⟨?_, ?_⟩, ⟨?_, ?_⟩, ⟨?_, ?_⟩⟩
  · rw [purpose_clarity_score_def]; exact clamp01_mem _
  · rw [energy_chronotype_score_def]
    apply qmin100_nonneg
    apply add_nonneg
    · apply add_nonneg (chronotype_scores_nonneg _)
      split
      · rw [qmin_eq_min]
        exact le_min (by norm_num)
          (div_nonneg (by exact_mod_cast hdur) (by norm_num))
      · exact le_refl 0
    · rw [qmin_eq_min]
      exact le_min (by norm_num) (mul_nonneg havg (by norm_num))
  · rw [energy_chronotype_score_def]; exact qmin100_le _
  · rw [focus_capacity_score_def]; exact clamp01_mem _
  · rw [habit_foundation_score_def]
    apply qmin100_nonneg
    apply add_nonneg (habit_scores_nonneg _)
    split <;> norm_num
  · rw [habit_foundation_score_def]; exact qmin100_le _
  · rw [mindset_score]
    apply qmin100_nonneg
    refine add_nonneg (setback_scores_nonneg _) (mul_nonneg ?_ (by norm_num))
    exact_mod_cast le_trans zero_le_one hc1
  · rw [mindset_score]; exact qmin100_le _
  · rw [skill_fit_score_def]
    apply qmin100_nonneg
    apply add_nonneg
    · rw [qmin_eq_min]
      exact le_min (by norm_num) (mul_nonneg (Nat.cast_nonneg _) (by norm_num))
    · rw [sum_map_const_rat]
      exact mul_nonneg (Nat.cast_nonneg _) (by norm_num)
  · rw [skill_fit_score_def]; exact qmin100_le _
theorem calculate_profile_axes_in_range_witness :
    (0 ≤ (calculate_profile_axes qC).purpose_clarity ∧
      (calculate_profile_axes qC).purpose_clarity ≤ 100) ∧
    (0 ≤ (calculate_profile_axes qC).energy_chronotype ∧
      (calculate_profile_axes qC).energy_chronotype ≤ 100) ∧
    (0 ≤ (calculate_profile_axes qC).focus_capacity ∧
      (calculate_profile_axes qC).focus_capacity ≤ 100) ∧
    (0 ≤ (calculate_profile_axes qC).habit_foundation ∧
      (calculate_profile_axes qC).habit_foundation ≤ 100) ∧
    (0 ≤ (calculate_profile_axes qC).mindset ∧
      (calculate_profile_axes qC).mindset ≤ 100) ∧
    (0 ≤ (calculate_profile_axes qC).skill_fit ∧
      (calculate_profile_axes qC).skill_fit ≤ 100) :=
  calculate_profile_axes_in_range qC (by decide)

/-- C2: `determine_archetype` evaluates its threshold rules in priority
order with the first match winning: rule (1) forces
PURPOSE_DRIVEN_HIGH_ENERGY even when rule (2) would also match; rule (2)
applies only when rule (1) fails; otherwise the result is
EXPLORATORY_MODERATE — so the function is total over `ProfileAxes`. -/
theorem determine_archetype_priority (a : ProfileAxes) :
    (60 ≤ a.purpose_clarity ∧ 70 ≤ a.energy_chronotype ∧ 60 ≤ a.focus_capacity →
      determine_archetype a = Archetype.PURPOSE_DRIVEN_HIGH_ENERGY) ∧
    (¬(60 ≤ a.purpose_clarity ∧ 70 ≤ a.energy_chronotype ∧ 60 ≤ a.focus_capacity) →
      a.habit_foundation < 40 ∧ a.energy_chronotype < 60 →
      determine_archetype a = Archetype.LOW_ENERGY_WANTS_CHANGE) ∧
    (¬(60 ≤ a.purpose_clarity ∧ 70 ≤ a.energy_chronotype ∧ 60 ≤ a.focus_capacity) →
      ¬(a.habit_foundation < 40 ∧ a.energy_chronotype < 60) →
      determine_archetype a = Archetype.EXPLORATORY_MODERATE) ∧
    ((60 ≤ a.purpose_clarity ∧ 70 ≤ a.energy_chronotype ∧ 60 ≤ a.focus_capacity) →
      (a.habit_foundation < 40 ∧ a.energy_chronotype < 60) →
      determine_archetype a = Archetype.PURPOSE_DRIVEN_HIGH_ENERGY) ∧
    (determine_archetype a = Archetype.PURPOSE_DRIVEN_HIGH_ENERGY ∨
      determine_archetype a = Archetype.EXPLORATORY_MODERATE ∨
      determine_archetype a = Archetype.LOW_ENERGY_WANTS_CHANGE) := by
  refine ⟨fun h1 => by simp [determine_archetype, h1],
    fun h1 h2 => by simp [determine_archetype, h1, h2],
    fun h1 h2 => by simp [determine_archetype, h1, h2],
    fun h1 _ => by simp [determine_archetype, h1], ?_⟩
  unfold determine_archetype
  split
  · exact Or.inl rfl
  · split
    · exact Or.inr (Or.inr rfl)
    · exact Or.inr (Or.inl rfl)

/-- C3 (code bug): when the key habit change is empty or whitespace-only,
`key_habit_change.split()` is empty and the source raises `IndexError` at
`split()[0]` instead of falling back to a token such as "Habit"; in the
embedding `generate_plan_template` yields `none`, not a `PlanTemplate`. -/
theorem generate_plan_template_empty_habit_faults :
    pySplit profileEmptyHabit.questionnaire.key_habit_change = [] ∧
    generate_plan_template profileEmptyHabit = none ∧
    pySplit profileSpacesHabit.questionnaire.key_habit_change = [] ∧
    generate_plan_template profileSpacesHabit = none :=
  ⟨rfl, rfl, rfl, rfl⟩

/-- C9: the archetype classification reads only purpose clarity, energy,
focus and habit foundation; two axes values agreeing on those four but
differing arbitrarily on mindset and skill fit classify identically. -/
theorem determine_archetype_ignores_mindset_skill (a b : ProfileAxes)
    (h1 : a.purpose_clarity = b.purpose_clarity)
    (h2 : a.energy_chronotype = b.energy_chronotype)
    (h3 : a.focus_capacity = b.focus_capacity)
    (h4 : a.habit_foundation = b.habit_foundation) :
    determine_archetype a = determine_archetype b := by
  simp only [determine_archetype, h1, h2, h3, h4]

theorem determine_archetype_ignores_mindset_skill_witness :
    determine_archetype axesHigh = determine_archetype axesHighAlt :=
  determine_archetype_ignores_mindset_skill axesHigh axesHighAlt rfl rfl rfl rfl

theorem qmin_of_le {a b : ℚ} (h : a ≤ b) : qmin a b = a := by
  unfold qmin; exact if_pos h

theorem qmin_of_ge {a b : ℚ} (h : b ≤ a) : qmin a b = b := by
  unfold qmin
  by_cases hab : a ≤ b
  · rw [if_pos hab]; exact le_antisymm hab h
  · rw [if_neg hab]

theorem qmax_of_le {a b : ℚ} (h : a ≤ b) : qmax a b = b := by
  unfold qmax; exact if_pos h

theorem qclamp_eval_mid {x : ℚ} (h0 : 0 ≤ x) (h100 : x ≤ 100) :
    qmin 100 (qmax 0 x) = x := by
  rw [qmax_of_le h0, qmin_of_ge h100]

/-- C4 (counterexample): a questionnaire meeting Scenario C's premises —
passionate problems exactly "I want to help and build tools", three
outcomes of more than 3 words — yields purpose_clarity 85, not the 100 the
claim asserts (only "help" and "build" match, 20+20, plus 3 by 15). -/
theorem purpose_clarity_scenario_c_counterexample :
    qC.passionate_problems = "I want to help and build tools" ∧
    3 < (pySplit qC.outcome_1).length ∧
    3 < (pySplit qC.outcome_2).length ∧
    3 < (pySplit qC.outcome_3).length ∧
    (calculate_profile_axes qC).purpose_clarity ≠ 100 := by
  refine ⟨rfl, by decide, by decide, by decide, ?_⟩
  rw [axes_purpose, purpose_clarity_score_def]
  have hf : purpose_keywords.filter
      (fun kw => containsSub (pyLower qC.passionate_problems) kw) = ["build", "help"] := by
    decide
  have hc : List.countP (fun o => decide (3 < (pySplit o).length))
      [qC.outcome_1, qC.outcome_2, qC.outcome_3] = 3 := by decide
  rw [hf, hc]
  norm_num
  rw [qclamp_eval_mid (by norm_num) (by norm_num)]
  norm_num

/-- C4 (amended): with passionate problems "I want to help and build tools"
and three outcomes of more than 3 words each, purpose_clarity equals 85 =
min(100, 20 + 20 + 15 + 15 + 15), not 100. -/
theorem purpose_clarity_scenario_c_value (q : QuestionnaireResponse)
    (hp : q.passionate_problems = "I want to help and build tools")
    (h1 : 3 < (pySplit q.outcome_1).length)
    (h2 : 3 < (pySplit q.outcome_2).length)
    (h3 : 3 < (pySplit q.outcome_3).length) :
    (calculate_profile_axes q).purpose_clarity = 85 := by
  rw [axes_purpose, purpose_clarity_score_def, hp]
  have hf : purpose_keywords.filter
      (fun kw => containsSub (pyLower "I want to help and build tools") kw) =
        ["build", "help"] := by decide
  have hc : List.countP (fun o => decide (3 < (pySplit o).length))
      [q.outcome_1, q.outcome_2, q.outcome_3] = 3 := by
    simp [List.countP_cons, h1, h2, h3]
  rw [hf, hc]
  norm_num
  exact qclamp_eval_mid (by norm_num) (by norm_num)

theorem purpose_clarity_scenario_c_value_witness :
    (calculate_profile_axes qC).purpose_clarity = 85 :=
  purpose_clarity_scenario_c_value qC rfl (by decide) (by decide) (by decide)

theorem routine_bonus_eq (q : QuestionnaireResponse) :
    (if pyStrip q.morning_routine ≠ "" ∧ pyTruthy q.morning_routine_duration then
      qmin 20 ((q.morning_routine_duration.getD 0 : ℚ) / 2)
    else 0) = spec_routine_bonus q := by
  unfold spec_routine_bonus
  cases hd : q.morning_routine_duration with
  | none => simp [hd, pyTruthy]
  | some d =>
    by_cases hs : pyStrip q.morning_routine ≠ ""
    · by_cases hz : d = 0
      · subst hz
        simp only [pyTruthy, hs, Option.getD_some, bne_self_eq_false, and_false,
          true_and, if_false, if_true, Int.cast_zero, zero_div, ite_true, ite_false]
        simp [hs]
        exact (qmin_of_ge (by norm_num)).symm
      · simp [pyTruthy, hs, hz]
    · simp [pyTruthy, hs]

/-- C5: energy_chronotype equals min(100, chronotype base + routine bonus +
time bonus), with the 20- and 30-caps applied per component before the sum
and only the final sum clamped to 100; in particular Scenario A (early
morning, no routine, 8 and 8 hours) scores exactly 100. -/
theorem energy_chronotype_formula :
    (∀ q : QuestionnaireResponse,
      (calculate_profile_axes q).energy_chronotype =
        qmin 100 (chronotype_scores q.chronotype + spec_routine_bonus q +
          qmin 30 (avg_hours q * 5))) ∧
    (calculate_profile_axes qA).energy_chronotype = 100 := by
  have hgen : ∀ q : QuestionnaireResponse,
      (calculate_profile_axes q).energy_chronotype =
        qmin 100 (chronotype_scores q.chronotype + spec_routine_bonus q +
          qmin 30 (avg_hours q * 5)) := by
    intro q
    rw [axes_energy, energy_chronotype_score_def, routine_bonus_eq]
  refine ⟨hgen, ?_⟩
  rw [hgen qA]
  have h1 : spec_routine_bonus qA = 0 := rfl
  have h2 : chronotype_scores qA.chronotype = 90 := rfl
  have h3 : avg_hours qA = 8 := by
    show ((8 : ℚ) * 5 + 8 * 2) / 7 = 8
    norm_num
  rw [h1, h2, h3, qmin_of_le (by norm_num : (30:ℚ) ≤ 8 * 5),
    qmin_of_le (by norm_num : (100:ℚ) ≤ 90 + 0 + 30)]

theorem clamp_comm (x : ℚ) : qmin 100 (qmax 0 x) = qmax 0 (qmin 100 x) := by
  rw [qmin_eq_min, qmin_eq_min, qmax_eq_max, qmax_eq_max, min_max_distrib_left]
  have h : min (100 : ℚ) 0 = 0 := min_eq_right (by norm_num)
  rw [h]

/-- C6: focus_capacity equals max(0, min(100, 15 per matched focus keyword
plus min(40, average hours times 8) minus 5 per distraction)); the
distraction subtraction is uncapped and the result is never negative. -/
theorem focus_capacity_formula :
    (∀ q : QuestionnaireResponse,
      (calculate_profile_axes q).focus_capacity =
        qmax 0 (qmin 100 ((spec_focus_keyword_count q : ℚ) * 15 +
          qmin 40 (avg_hours q * 8) - 5 * (q.distractions.length : ℚ)))) ∧
    (∀ q : QuestionnaireResponse, 0 ≤ (calculate_profile_axes q).focus_capacity) := by
  constructor
  · intro q
    rw [axes_focus, focus_capacity_score_def, sum_map_const_rat, clamp_comm]
    congr 2
    unfold spec_focus_keyword_count
    ring
  · intro q
    rw [axes_focus, focus_capacity_score_def]
    exact (clamp01_mem _).1

/-- C7: skill_fit equals min(100, min(60, 20 per skill) + 15 per aligned
skill, counted at most once per skill); an empty skills list scores 0, and
the first pillar of a PURPOSE_DRIVEN_HIGH_ENERGY plan then interpolates the
literal fallback "core skills". -/
theorem skill_fit_formula :
    (∀ q : QuestionnaireResponse,
      (calculate_profile_axes q).skill_fit =
        qmin 100 (qmin 60 ((q.skills.length : ℚ) * 20) +
          15 * (spec_aligned_skill_count q : ℚ))) ∧
    (∀ q : QuestionnaireResponse, q.skills = [] →
      (calculate_profile_axes q).skill_fit = 0) ∧
    (∀ (p : UserProfile) (pl : PlanTemplate),
      p.archetype = Archetype.PURPOSE_DRIVEN_HIGH_ENERGY →
      p.questionnaire.skills = [] →
      generate_plan_template p = some pl →
      pl.pillars.head? = some "Master core skills through daily practice") := by
  refine ⟨?_, ?_, ?_⟩
  · intro q
    rw [axes_skill, skill_fit_score_def, sum_map_const_rat]
    congr 2
    unfold spec_aligned_skill_count
    ring
  · intro q hq
    rw [axes_skill, skill_fit_score_def, hq]
    simp only [List.length_nil, List.filter_nil, List.map_nil, List.sum_nil,
      Nat.cast_zero, zero_mul, add_zero]
    rw [qmin_of_ge (by norm_num : (0:ℚ) ≤ 60), qmin_of_ge (by norm_num : (0:ℚ) ≤ 100)]
  · intro p pl ha hs h
    simp only [generate_plan_template] at h
    cases hsp : pySplit p.questionnaire.key_habit_change with
    | nil => rw [hsp] at h; simp at h
    | cons t rest =>
      rw [hsp] at h
      injection h with h
      subst h
      simp only [ha, pillarsFor, hs]
      rw [List.head?_cons]
      decide

/-- C8: the keyword contributions to purpose_clarity and focus_capacity
depend only on which keywords of the fixed lists occur in the text, not on
how often: two texts matching the same keyword sets (for instance one
repeating a keyword many times) yield equal axis values, all other answers
held fixed. -/
theorem keyword_score_multiplicity (q : QuestionnaireResponse) (t u : String)
    (hp : ∀ kw ∈ purpose_keywords,
      containsSub (pyLower t) kw = containsSub (pyLower q.passionate_problems) kw)
    (hf : ∀ kw ∈ focus_keywords,
      containsSub (pyLower u) kw = containsSub (pyLower q.energizing_activities) kw) :
    (calculate_profile_axes
        { q with passionate_problems := t, energizing_activities := u }).purpose_clarity =
      (calculate_profile_axes q).purpose_clarity ∧
    (calculate_profile_axes
        { q with passionate_problems := t, energizing_activities := u }).focus_capacity =
      (calculate_profile_axes q).focus_capacity := by
  constructor
  · rw [axes_purpose, axes_purpose, purpose_clarity_score_def, purpose_clarity_score_def]
    dsimp only
    rw [List.filter_congr (fun kw hkw => hp kw hkw)]
  · rw [axes_focus, axes_focus, focus_capacity_score_def, focus_capacity_score_def]
    dsimp only
    rw [List.filter_congr (fun kw hkw => hf kw hkw)]
    rfl

theorem keyword_score_multiplicity_witness :
    (calculate_profile_axes qKRep).purpose_clarity =
      (calculate_profile_axes qK).purpose_clarity ∧
    (calculate_profile_axes qKRep).focus_capacity =
      (calculate_profile_axes qK).focus_capacity :=
  keyword_score_multiplicity qK "build build and build again" "coding coding coding"
    (by decide) (by decide)

/-- C10: the suggested time blocks number exactly 3 for
PURPOSE_DRIVEN_HIGH_ENERGY and exactly 2 otherwise, hence always at least
2, so the "dinner" fallback is unreachable: whenever synthesis succeeds the
second habit-stack entry's cue is "After " followed by the activity of the
second time block of the archetype's template. -/
theorem generate_plan_second_cue (p : UserProfile) (pl : PlanTemplate)
    (h : generate_plan_template p = some pl) :
    pl.suggested_time_blocks.length =
      (if p.archetype = Archetype.PURPOSE_DRIVEN_HIGH_ENERGY then 3 else 2) ∧
    2 ≤ pl.suggested_time_blocks.length ∧
    ∃ tb : TimeBlock, (timeBlocksFor p.archetype).get? 1 = some tb ∧
      (pl.habit_stack.get? 1).map HabitStack.cue = some ("After " ++ tb.activity) := by
  simp only [generate_plan_template] at h
  cases hsp : pySplit p.questionnaire.key_habit_change with
  | nil => rw [hsp] at h; simp at h
  | cons t rest =>
    rw [hsp] at h
    injection h with h
    subst h
    cases p.archetype <;>
      exact ⟨rfl, by simp [timeBlocksFor], ⟨_, rfl, rfl⟩⟩

theorem generate_plan_second_cue_witness :
    planP.suggested_time_blocks.length =
      (if profileP.archetype = Archetype.PURPOSE_DRIVEN_HIGH_ENERGY then 3 else 2) ∧
    2 ≤ planP.suggested_time_blocks.length ∧
    ∃ tb : TimeBlock, (timeBlocksFor profileP.archetype).get? 1 = some tb ∧
      (planP.habit_stack.get? 1).map HabitStack.cue = some ("After " ++ tb.activity) :=
  generate_plan_second_cue profileP planP rfl
